import Mathlib

/-!
Shallow embedding of `united_payment/client.py` (class `UnitedPaymentAPI`).

The client holds credentials and a token cache (`token`, `token_expiry`),
refreshes the token through `login`, builds headers, dispatches HTTP
requests, parses the line-oriented response format and probes response
bodies for embedded error codes.

Modelling conventions:
- Python exceptions become an explicit error type `PyExc`; a method that can
  raise returns the (possibly mutated) client state, an `Except PyExc`
  result, and the list of HTTP requests it issued, in source order.
- `datetime.now()` is passed in explicitly as a natural number of seconds;
  `timedelta(minutes=57)` is `57 * 60` seconds.
- The HTTP transport (`requests.get` / `requests.post`) is an external
  collaborator, modelled as a function from the request to either a
  response or a connection-level failure (`requests.RequestException`).
- A response carries its status code, its text, and the result of
  attempting to decode its body as JSON (`response.json()`), which is what
  the code observes of the body.
-/

namespace UnitedPayment

/-- Python exceptions that the modelled code can raise. `requestException`
stands for `requests.RequestException`; `unitedPaymentAPIException` is the
package's own exception class (spec names: AuthenticationError / APIError /
TransportError are all this one class in the code). `unboundLocalError`
stands for the NameError/UnboundLocalError raised on reading a local
variable that was never assigned. -/
inductive PyExc where
  | valueError
  | attributeError
  | unboundLocalError
  | requestException
  | unitedPaymentAPIException (msg : String)
  deriving DecidableEq, Repr

/-- A decoded JSON value, the possible results of `response.json()`. -/
inductive Json where
  | null
  | bool (b : Bool)
  | num (n : Int)
  | str (s : String)
  | arr (items : List Json)
  | obj (fields : List (String × Json))
  deriving Repr

mutual

/-- Python `repr()` of a decoded JSON value. -/
def pyRepr : Json → String
  | .null => "None"
  | .bool true => "True"
  | .bool false => "False"
  | .num n => toString n
  | .str s => "\x27" ++ s ++ "\x27"
  | .arr items => "[" ++ pyReprList items ++ "]"
  | .obj fields => "\x7b" ++ pyReprFields fields ++ "\x7d"

/-- Comma-separated `repr()`s of list items. -/
def pyReprList : List Json → String
  | [] => ""
  | [j] => pyRepr j
  | j :: rest => pyRepr j ++ ", " ++ pyReprList rest

/-- Comma-separated `repr()`s of dict entries. -/
def pyReprFields : List (String × Json) → String
  | [] => ""
  | [(k, v)] => "\x27" ++ k ++ "\x27: " ++ pyRepr v
  | (k, v) :: rest => "\x27" ++ k ++ "\x27: " ++ pyRepr v ++ ", " ++ pyReprFields rest

end

/-- Python `str()` of a decoded JSON value (as used by an f-string). -/
def pyStr : Json → String
  | .str s => s
  | j => pyRepr j

/-- Python `str()` of an attribute that may be `None` (e.g. `self.token`). -/
def pyStrOpt : Option Json → String
  | none => "None"
  | some j => pyStr j

/-- Python truthiness of a decoded JSON value. -/
def Json.pyTruthy : Json → Bool
  | .null => false
  | .bool b => b
  | .num n => n != 0
  | .str s => !s.isEmpty
  | .arr items => !items.isEmpty
  | .obj fields => !fields.isEmpty

/-- Python truthiness of an optional value (`None` is falsy). -/
def pyTruthy : Option Json → Bool
  | none => false
  | some j => j.pyTruthy

/-- Python `a or b` on optional JSON values: `a` if truthy, else `b`. -/
def pyOr (a b : Option Json) : Option Json :=
  if pyTruthy a then a else b

/-- Python `dict.get` on the fields of a JSON object: the first binding of
the key, or `None` when absent. -/
def dict_get (fields : List (String × Json)) (k : String) : Option Json :=
  match fields with
  | [] => none
  | (k2, v) :: rest => if k2 = k then some v else dict_get rest k

/-- Lookup in a string-to-string dict (the error catalog). -/
def lookupStr (m : List (String × String)) (k : String) : Option String :=
  match m with
  | [] => none
  | (k2, v) :: rest => if k2 = k then some v else lookupStr rest k

/-- Python `d[key] = value` on an insertion-ordered string dict: replaces the
value in place when the key is present, appends otherwise. -/
def pyDictSet (m : List (String × String)) (k v : String) : List (String × String) :=
  match m with
  | [] => [(k, v)]
  | (k2, v2) :: rest => if k2 = k then (k, v) :: rest else (k2, v2) :: pyDictSet rest k v

/-- Characters Python's default `str.strip()` removes. -/
def pyIsSpace (c : Char) : Bool :=
  c = ' ' || c = '\t' || c = '\n' || c = '\r' || c = '\x0b' || c = '\x0c'

/-- Python `str.strip()` on a character list: drop whitespace from both ends. -/
def pyStripChars (s : List Char) : List Char :=
  ((s.dropWhile pyIsSpace).reverse.dropWhile pyIsSpace).reverse

/-- Python `str.split(sep)` restricted to the single-character separator
`'\n'`: split at every occurrence, keeping empty pieces. -/
def splitLines : List Char → List (List Char)
  | [] => [[]]
  | c :: cs =>
    let rest := splitLines cs
    if c = '\n' then [] :: rest
    else
      match rest with
      | [] => [[c]]
      | l :: ls => (c :: l) :: ls

/-- Python substring containment `sep in s`. -/
def containsSub (sep : List Char) : List Char → Bool
  | [] => sep.isEmpty
  | c :: cs => sep.isPrefixOf (c :: cs) || containsSub sep cs

/-- Split at the first occurrence of `sep`, returning the pieces before and
after it, or `none` when `sep` does not occur. -/
def splitOnce (sep : List Char) : List Char → Option (List Char × List Char)
  | [] => if sep.isEmpty then some ([], []) else none
  | c :: cs =>
    if sep.isPrefixOf (c :: cs) then some ([], (c :: cs).drop sep.length)
    else
      match splitOnce sep cs with
      | none => none
      | some (pre, post) => some (c :: pre, post)

/-- Python `s.split(sep, 1)`: one or two pieces. -/
def pySplit1 (sep s : List Char) : List (List Char) :=
  match splitOnce sep s with
  | none => [s]
  | some (a, b) => [a, b]

/-- The separator `": "` of the line format. -/
def sepChars : List Char := [':', ' ']

/-- Loop body of `parse_response`: iterate over the lines; when a line
contains `": "`, unpack `line.split(': ', 1)` into `(key, value)` (the
unpacking raises `ValueError` if the split does not yield exactly two
pieces), strip both and assign into the dict; other lines are skipped. -/
def parseLines : List (List Char) → List (String × String) →
    Except PyExc (List (String × String))
  | [], acc => .ok acc
  | line :: rest, acc =>
    if containsSub sepChars line then
      match pySplit1 sepChars line with
      | [key, value] =>
          parseLines rest
            (pyDictSet acc (pyStripChars key).asString (pyStripChars value).asString)
      | _ => .error .valueError
    else parseLines rest acc

/-- Embedding of `UnitedPaymentAPI.parse_response` (client.py:96-112): strip
the response text, split it into lines, and collect `key: value` pairs. -/
def parse_response (text : String) : Except PyExc (List (String × String)) :=
  let result := pyStripChars text.toList
  parseLines (splitLines result) []

/-- An HTTP response as the code observes it: the status code, the text of
the body, and the outcome of `response.json()` (a `ValueError` when the
body is not JSON). -/
structure HttpResponse where
  status_code : Nat
  text : String
  json : Except Unit Json

/-- Python `response_data is dict` (client.py:128): identity comparison of
the decoded value against the builtin type object `dict`. A value decoded
from JSON is an instance, never the type object itself, so this test is
`False` for every response. -/
def pyIsDictTypeObject (_ : Json) : Bool := false

/-- Embedding of `UnitedPaymentAPI.handle_response_errors`
(client.py:114-136), parametrised by the module-level catalog
`error_codes` (defined in `united_payment/exceptions.py`, outside the
modelled sources). Returns `some e` when the method raises `e`, `none` when
it returns normally. On non-200 status it tries `response.json()`; a
`ValueError` is caught and printed, not re-raised. Inside the (dead)
`response_data is dict` branch it reads `errorCode` or `error`, and raises
`UnitedPaymentAPIException` when that value is a catalog key. -/
def handle_response_errors (codes : List (String × String)) (resp : HttpResponse) :
    Option PyExc :=
  if resp.status_code ≠ 200 then
    match resp.json with
    | .error _ => none
    | .ok response_data =>
      if pyIsDictTypeObject response_data then
        match response_data with
        | .obj fields =>
          match pyOr (dict_get fields "errorCode") (dict_get fields "error") with
          | some (.str c) =>
            match lookupStr codes c with
            | some msg => some (.unitedPaymentAPIException ("Error " ++ c ++ ": " ++ msg))
            | none => none
          | _ => none
        | _ => some .attributeError
      else none
  else none

/-- ASCII uppercasing of one character, as Python `str.upper()` does on the
method strings in scope. -/
def pyCharUpper (c : Char) : Char :=
  if 'a' ≤ c ∧ c ≤ 'z' then Char.ofNat (c.toNat - 32) else c

/-- Python `str.upper()` (ASCII range, which covers the HTTP method
strings the dispatcher compares against). -/
def pyUpper (s : String) : String :=
  (s.toList.map pyCharUpper).asString

/-- An outbound HTTP request: the method, the full URL, the headers, and
the payload (`json=` body for POST, `params=` for GET, both a dict). -/
structure Request where
  method : String
  url : String
  headers : List (String × String)
  body : List (String × Json)
  deriving Repr

/-- The HTTP transport (the `requests` library plus the network): maps a
request to a response, or to a connection-level `requests.RequestException`. -/
def Transport : Type := Request → Except Unit HttpResponse

/-- The mutable state of a `UnitedPaymentAPI` instance (client.py:36-40):
credentials fixed at construction, plus the token cache. `token` holds the
decoded `token` field of the last successful login response (possibly
`none` when the field was absent, mirroring `dict.get`). -/
structure ClientState where
  base_url : String
  email : String
  password : String
  token : Option Json
  token_expiry : Option Nat

/-- The login request that `login` sends (client.py:51-58): a POST to
`base_url + "/auth/"` with a JSON content-type header and the credentials
as body. -/
def authRequestOf (st : ClientState) : Request :=
  { method := "POST"
    url := st.base_url ++ "/auth/"
    headers := [("Content-Type", "application/json")]
    body := [("email", .str st.email), ("password", .str st.password)] }

/-- Embedding of `UnitedPaymentAPI.login` (client.py:43-66). Sends the
credentials to `/auth/`; on status 200 stores `response.json().get('token')`
and sets `token_expiry = now + 57 minutes`; on any other status raises
`UnitedPaymentAPIException` leaving the state untouched. A transport
failure or a `ValueError` from `response.json()` propagates (there is no
`try` here); `.get` on a non-dict decoded value raises `AttributeError`.
Returns the state after the call, the outcome, and the requests issued. -/
def login (st : ClientState) (now : Nat) (tr : Transport) :
    ClientState × Except PyExc Unit × List Request :=
  let req := authRequestOf st
  match tr req with
  | .error _ => (st, .error .requestException, [req])
  | .ok resp =>
    if resp.status_code = 200 then
      match resp.json with
      | .error _ => (st, .error .valueError, [req])
      | .ok j =>
        match j with
        | .obj fields =>
          ({ st with token := dict_get fields "token", token_expiry := some (now + 57 * 60) },
           .ok (), [req])
        | _ => (st, .error .attributeError, [req])
    else
      (st, .error (.unitedPaymentAPIException "Failed to login and retrieve token."), [req])

/-- Embedding of `UnitedPaymentAPI.is_token_expired` (client.py:68-77):
`True` when no expiry is recorded or `datetime.now() >= token_expiry`. -/
def is_token_expired (st : ClientState) (now : Nat) : Bool :=
  match st.token_expiry with
  | none => true
  | some e => now ≥ e

/-- Embedding of `UnitedPaymentAPI.update_token` (client.py:79-84):
log in again exactly when the token is expired. -/
def update_token (st : ClientState) (now : Nat) (tr : Transport) :
    ClientState × Except PyExc Unit × List Request :=
  if is_token_expired st now then login st now tr else (st, .ok (), [])

/-- The header dict that `set_headers` returns (client.py:91-94). -/
def headersOf (st : ClientState) : List (String × String) :=
  [("x-auth-token", "Bearer " ++ pyStrOpt st.token), ("Content-Type", "application/json")]

/-- Embedding of `UnitedPaymentAPI.set_headers` (client.py:86-94): when the
cached token is falsy (`None` or empty), call `update_token`; then return
the `x-auth-token` / `Content-Type` header dict built from the (possibly
refreshed) token. -/
def set_headers (st : ClientState) (now : Nat) (tr : Transport) :
    ClientState × Except PyExc (List (String × String)) × List Request :=
  if pyTruthy st.token then
    (st, .ok (headersOf st), [])
  else
    match update_token st now tr with
    | (st2, .ok _, log) => (st2, .ok (headersOf st2), log)
    | (st2, .error e, log) => (st2, .error e, log)

/-- Embedding of `UnitedPaymentAPI.make_request` (client.py:138-168):
refresh the token, build the URL and headers, send GET or POST according to
`method.upper()` (any other method leaves the local variable `response`
unbound, so reading it raises `UnboundLocalError`), run the error-detection
pass, and return the line-parsed body. The `except requests.RequestException`
clause wraps only transport failures of the send into
`UnitedPaymentAPIException`; every other exception escapes unchanged. -/
def make_request (st : ClientState) (now : Nat) (tr : Transport)
    (codes : List (String × String)) (endpoint : String)
    (data : List (String × Json)) (method : String) :
    ClientState × Except PyExc (List (String × String)) × List Request :=
  match update_token st now tr with
  | (st1, .error e, log1) => (st1, .error e, log1)
  | (st1, .ok _, log1) =>
    let url := st1.base_url ++ endpoint
    match set_headers st1 now tr with
    | (st2, .error e, log2) => (st2, .error e, log1 ++ log2)
    | (st2, .ok headers, log2) =>
      let send : Option Request :=
        if pyUpper method = "GET" then
          some { method := "GET", url := url, headers := headers, body := data }
        else if pyUpper method = "POST" then
          some { method := "POST", url := url, headers := headers, body := data }
        else none
      match send with
      | none => (st2, .error .unboundLocalError, log1 ++ log2)
      | some req =>
        match tr req with
        | .error _ =>
          (st2, .error (.unitedPaymentAPIException "Request failed: ..."),
           log1 ++ log2 ++ [req])
        | .ok resp =>
          match handle_response_errors codes resp with
          | some e => (st2, .error e, log1 ++ log2 ++ [req])
          | none =>
            match parse_response resp.text with
            | .error e => (st2, .error e, log1 ++ log2 ++ [req])
            | .ok d => (st2, .ok d, log1 ++ log2 ++ [req])

/-- Python `if v:` guard around `data[k] = v` for an optional string
argument (the conditional payload inserts of the operation builders). -/
def addIfTruthy (m : List (String × Json)) (k : String) (v : Option String) :
    List (String × Json) :=
  match v with
  | none => m
  | some s => if s.isEmpty then m else m ++ [(k, .str s)]

/-- The payload that `pay_by_link_qr_code` assembles (client.py:640-655):
`email` always, then the optional fields in source order, each inserted
only when truthy. -/
def payByLinkPayload (email : String)
    (amount installment telephone member_id order_id description : Option String) :
    List (String × Json) :=
  let data : List (String × Json) := [("email", .str email)]
  let data := addIfTruthy data "installment" installment
  let data := addIfTruthy data "description" description
  let data := addIfTruthy data "telephone" telephone
  let data := addIfTruthy data "memberId" member_id
  let data := addIfTruthy data "orderId" order_id
  let data := addIfTruthy data "amount" amount
  data

/-- Embedding of `UnitedPaymentAPI.pay_by_link_qr_code` (client.py:618-660).
Unlike the other operations it does not go through `make_request`: it calls
`set_headers` directly (so no expiry check), POSTs the payload to
`/transactions/create-pay-link` with no `try` around the send, runs the
error-detection pass, and returns the raw response text. -/
def pay_by_link_qr_code (st : ClientState) (now : Nat) (tr : Transport)
    (codes : List (String × String)) (email : String)
    (amount installment telephone member_id order_id description : Option String) :
    ClientState × Except PyExc String × List Request :=
  let url := st.base_url ++ "/transactions/create-pay-link"
  match set_headers st now tr with
  | (st1, .error e, log) => (st1, .error e, log)
  | (st1, .ok headers, log) =>
    let data := payByLinkPayload email amount installment telephone member_id order_id
      description
    let req : Request := { method := "POST", url := url, headers := headers, body := data }
    match tr req with
    | .error _ => (st1, .error .requestException, log ++ [req])
    | .ok resp =>
      match handle_response_errors codes resp with
      | some e => (st1, .error e, log ++ [req])
      | none => (st1, .ok resp.text, log ++ [req])

/-- Modelled from the spec: the Error Catalog
(`UnitedPaymentAPIException.error_codes` in `united_payment/exceptions.py`)
is not among the modelled sources; the spec describes it only as a static
mapping from numeric/string error codes to human-readable messages. This is
a representative sample used for concrete evaluations; every general
theorem below quantifies over the catalog. -/
def error_codes_sample : List (String × String) :=
  [("100", "Wrong amount"), ("3", "Invalid merchant"), ("declined", "Transaction declined")]

/-- Credentials are never touched by any method after construction. -/
def CredsFixed (st st2 : ClientState) : Prop :=
  st2.base_url = st.base_url ∧ st2.email = st.email ∧ st2.password = st.password

/-- The token cache of `st2` was written by a successful login performed
from `st` at time `now`: the auth request is among the issued requests, the
transport answered it with status 200 and a JSON object, `token` is that
object's `token` field and `token_expiry` is `now + 57` minutes. -/
def TokenSetByLogin (st st2 : ClientState) (now : Nat) (tr : Transport)
    (log : List Request) : Prop :=
  authRequestOf st ∈ log ∧
  ∃ resp fields, tr (authRequestOf st) = .ok resp ∧ resp.status_code = 200 ∧
    resp.json = .ok (.obj fields) ∧
    st2.token = dict_get fields "token" ∧ st2.token_expiry = some (now + 57 * 60)

/-- One client operation respects the session invariant: credentials are
unchanged, and the token cache is either exactly as before or was written
by a successful login during the operation. -/
def SessionInvStep (st st2 : ClientState) (now : Nat) (tr : Transport)
    (log : List Request) : Prop :=
  CredsFixed st st2 ∧
  ((st2.token = st.token ∧ st2.token_expiry = st.token_expiry) ∨
    TokenSetByLogin st st2 now tr log)

/-- Fixture: a client state with a truthy, unexpired token (expiry 1000). -/
def stValid : ClientState :=
  { base_url := "https://api.example", email := "e@x", password := "pw",
    token := some (.str "tok"), token_expiry := some 1000 }

/-- Fixture: a client state whose token is present but empty (falsy in
Python) and whose expiry (10) has passed. -/
def stEmptyTok : ClientState :=
  { base_url := "u", email := "e", password := "p",
    token := some (.str ""), token_expiry := some 10 }

/-- Fixture: a client state with a truthy token whose expiry (10) has
passed. -/
def stStale : ClientState :=
  { base_url := "u", email := "e", password := "p",
    token := some (.str "old"), token_expiry := some 10 }

/-- Fixture transport: every request gets status 200 with a line-format
body and a non-JSON parse outcome. -/
def trText200 : Transport := fun _ => .ok ⟨200, "Status: OK", .error ()⟩

/-- Fixture transport: the auth endpoint of `stEmptyTok` answers 200 with a
fresh token; everything else answers 200 with plain text. -/
def trAuthFresh : Transport := fun req =>
  if req.url = "u/auth/" then .ok ⟨200, "", .ok (.obj [("token", .str "fresh")])⟩
  else .ok ⟨200, "OK", .error ()⟩

/-- Fixture transport: every request is answered with status 500. -/
def trFail500 : Transport := fun _ => .ok ⟨500, "", .error ()⟩

theorem containsSub_eq_isSome (sep : List Char) (s : List Char) :
    containsSub sep s = (splitOnce sep s).isSome := by
  induction s with
  | nil =>
    simp only [containsSub, splitOnce]
    by_cases h : sep.isEmpty <;> simp [h]
  | cons c cs ih =>
    simp only [containsSub, splitOnce]
    cases hp : sep.isPrefixOf (c :: cs) with
    | true => simp
    | false =>
      simp only [Bool.false_or]
      rw [ih]
      cases hs : splitOnce sep cs with
      | none => simp
      | some pr => obtain ⟨pre, post⟩ := pr; simp

theorem parseLines_ok (lines : List (List Char)) :
    ∀ acc, ∃ m, parseLines lines acc = .ok m := by
  induction lines with
  | nil => intro acc; exact ⟨acc, rfl⟩
  | cons line rest ih =>
    intro acc
    by_cases h : containsSub sepChars line = true
    · have hs : (splitOnce sepChars line).isSome := by
        rw [containsSub_eq_isSome] at h; exact h
      obtain ⟨⟨k, v⟩, hkv⟩ := Option.isSome_iff_exists.mp hs
      have hsplit : pySplit1 sepChars line = [k, v] := by unfold pySplit1; rw [hkv]
      simpa [parseLines, h, hsplit] using ih _
    · simpa [parseLines, h] using ih acc

theorem hre_none (codes : List (String × String)) (resp : HttpResponse) :
    handle_response_errors codes resp = none := by
  unfold handle_response_errors
  by_cases h : resp.status_code ≠ 200
  · rw [if_pos h]
    cases hj : resp.json with
    | error e => rfl
    | ok j => simp [pyIsDictTypeObject]
  · simp [h]

theorem parseLines_skip (bad : List Char) (hbad : containsSub sepChars bad = false)
    (post : List (List Char)) :
    ∀ (pre : List (List Char)) (acc : List (String × String)),
      parseLines (pre ++ bad :: post) acc = parseLines (pre ++ post) acc := by
  intro pre
  induction pre with
  | nil => intro acc; simp [parseLines, hbad]
  | cons line pre ih =>
    intro acc
    by_cases h : containsSub sepChars line = true
    · have hs : (splitOnce sepChars line).isSome := by
        rw [containsSub_eq_isSome] at h; exact h
      obtain ⟨⟨k, v⟩, hkv⟩ := Option.isSome_iff_exists.mp hs
      have hsplit : pySplit1 sepChars line = [k, v] := by unfold pySplit1; rw [hkv]
      simp [parseLines, h, hsplit, ih]
    · simp [parseLines, h, ih]

theorem parseLines_step (line : List Char) (k v : List Char)
    (hs : splitOnce sepChars line = some (k, v)) (rest : List (List Char))
    (acc : List (String × String)) :
    parseLines (line :: rest) acc =
      parseLines rest (pyDictSet acc (pyStripChars k).asString (pyStripChars v).asString) := by
  have h : containsSub sepChars line = true := by
    rw [containsSub_eq_isSome, hs]; rfl
  have hsplit : pySplit1 sepChars line = [k, v] := by unfold pySplit1; rw [hs]
  simp [parseLines, h, hsplit]

theorem sessionInvStep_refl (st : ClientState) (now : Nat) (tr : Transport)
    (log : List Request) : SessionInvStep st st now tr log :=
  ⟨⟨rfl, rfl, rfl⟩, .inl ⟨rfl, rfl⟩⟩

theorem authRequestOf_congr {st st2 : ClientState} (h : CredsFixed st st2) :
    authRequestOf st2 = authRequestOf st := by
  obtain ⟨h1, h2, h3⟩ := h
  simp [authRequestOf, h1, h2, h3]

theorem sessionInvStep_mono {st st2 : ClientState} {now : Nat} {tr : Transport}
    {log log2 : List Request} (hsub : log ⊆ log2)
    (h : SessionInvStep st st2 now tr log) : SessionInvStep st st2 now tr log2 := by
  obtain ⟨hc, hid | ⟨hmem, hrest⟩⟩ := h
  · exact ⟨hc, .inl hid⟩
  · exact ⟨hc, .inr ⟨hsub hmem, hrest⟩⟩

theorem sessionInvStep_trans {st st1 st2 : ClientState} {now : Nat} {tr : Transport}
    {l1 l2 : List Request} (h1 : SessionInvStep st st1 now tr l1)
    (h2 : SessionInvStep st1 st2 now tr l2) :
    SessionInvStep st st2 now tr (l1 ++ l2) := by
  obtain ⟨hc1, hrest1⟩ := h1
  obtain ⟨hc2, hrest2⟩ := h2
  have hc : CredsFixed st st2 :=
    ⟨hc2.1.trans hc1.1, hc2.2.1.trans hc1.2.1, hc2.2.2.trans hc1.2.2⟩
  refine ⟨hc, ?_⟩
  rcases hrest2 with hid2 | ⟨hmem2, hlog2⟩
  · rcases hrest1 with hid1 | ⟨hmem1, hlog1⟩
    · exact .inl ⟨hid2.1.trans hid1.1, hid2.2.trans hid1.2⟩
    · exact .inr ⟨List.mem_append_left _ hmem1,
        by rw [hid2.1, hid2.2]; exact hlog1⟩
  · rw [authRequestOf_congr hc1] at hmem2 hlog2
    exact .inr ⟨List.mem_append_right _ hmem2, hlog2⟩

theorem login_log (st : ClientState) (now : Nat) (tr : Transport) :
    (login st now tr).2.2 = [authRequestOf st] := by
  rcases htr : tr (authRequestOf st) with e | resp
  · simp [login, htr]
  · by_cases h : resp.status_code = 200
    · rcases hj : resp.json with e | j
      · simp [login, htr, h, hj]
      · rcases j <;> simp [login, htr, h, hj]
    · simp [login, htr, h]

theorem login_step (st : ClientState) (now : Nat) (tr : Transport) :
    SessionInvStep st (login st now tr).1 now tr (login st now tr).2.2 := by
  rcases htr : tr (authRequestOf st) with e | resp
  · simp only [login, htr]
    exact sessionInvStep_refl ..
  · by_cases h : resp.status_code = 200
    · rcases hj : resp.json with e | j
      · simp only [login, htr, hj, h, if_true]
        exact sessionInvStep_refl ..
      · rcases j with _ | b | n | s | items | fields <;>
          simp only [login, htr, hj, h, if_true]
        · exact sessionInvStep_refl ..
        · exact sessionInvStep_refl ..
        · exact sessionInvStep_refl ..
        · exact sessionInvStep_refl ..
        · exact sessionInvStep_refl ..
        · exact ⟨⟨rfl, rfl, rfl⟩, .inr ⟨List.mem_singleton.mpr rfl, resp, fields,
            htr, h, hj, rfl, rfl⟩⟩
    · simp only [login, htr, if_neg h]
      exact sessionInvStep_refl ..

theorem update_token_step (st : ClientState) (now : Nat) (tr : Transport) :
    SessionInvStep st (update_token st now tr).1 now tr (update_token st now tr).2.2 := by
  unfold update_token
  by_cases h : is_token_expired st now = true
  · rw [if_pos h]; exact login_step st now tr
  · rw [if_neg h]; exact sessionInvStep_refl ..

theorem set_headers_step (st : ClientState) (now : Nat) (tr : Transport) :
    SessionInvStep st (set_headers st now tr).1 now tr (set_headers st now tr).2.2 := by
  unfold set_headers
  by_cases h : pyTruthy st.token = true
  · rw [if_pos h]; exact sessionInvStep_refl ..
  · rw [if_neg h]
    have hstep := update_token_step st now tr
    rcases hu : update_token st now tr with ⟨st2, res, log⟩
    rw [hu] at hstep
    rcases res with e | v
    · exact hstep
    · exact hstep

theorem make_request_step (st : ClientState) (now : Nat) (tr : Transport)
    (codes : List (String × String)) (endpoint : String) (data : List (String × Json))
    (method : String) :
    SessionInvStep st (make_request st now tr codes endpoint data method).1 now tr
      (make_request st now tr codes endpoint data method).2.2 := by
  unfold make_request
  have h1 := update_token_step st now tr
  rcases hu : update_token st now tr with ⟨st1, res1, log1⟩
  rw [hu] at h1
  rcases res1 with e | v
  · exact h1
  · dsimp only
    have h2 := set_headers_step st1 now tr
    rcases hs : set_headers st1 now tr with ⟨st2, res2, log2⟩
    rw [hs] at h2
    have h12 : SessionInvStep st st2 now tr (log1 ++ log2) := sessionInvStep_trans h1 h2
    rcases res2 with e | headers
    · exact h12
    · dsimp only
      by_cases hg : pyUpper method = "GET"
      · rw [if_pos hg]
        dsimp only
        rcases htr : tr ⟨"GET", st1.base_url ++ endpoint, headers, data⟩ with e | resp
        · exact sessionInvStep_mono (List.subset_append_left _ _) h12
        · dsimp only
          rcases hh : handle_response_errors codes resp with _ | e2
          · dsimp only
            rcases hp : parse_response resp.text with e3 | d <;>
              exact sessionInvStep_mono (List.subset_append_left _ _) h12
          · exact sessionInvStep_mono (List.subset_append_left _ _) h12
      · rw [if_neg hg]
        by_cases hp2 : pyUpper method = "POST"
        · rw [if_pos hp2]
          dsimp only
          rcases htr : tr ⟨"POST", st1.base_url ++ endpoint, headers, data⟩ with e | resp
          · exact sessionInvStep_mono (List.subset_append_left _ _) h12
          · dsimp only
            rcases hh : handle_response_errors codes resp with _ | e2
            · dsimp only
              rcases hp : parse_response resp.text with e3 | d <;>
                exact sessionInvStep_mono (List.subset_append_left _ _) h12
            · exact sessionInvStep_mono (List.subset_append_left _ _) h12
        · rw [if_neg hp2]
          exact h12

theorem pay_by_link_step (st : ClientState) (now : Nat) (tr : Transport)
    (codes : List (String × String)) (email : String)
    (amount installment telephone member_id order_id description : Option String) :
    SessionInvStep st
      (pay_by_link_qr_code st now tr codes email amount installment telephone member_id
        order_id description).1 now tr
      (pay_by_link_qr_code st now tr codes email amount installment telephone member_id
        order_id description).2.2 := by
  unfold pay_by_link_qr_code
  have h1 := set_headers_step st now tr
  rcases hs : set_headers st now tr with ⟨st1, res1, log1⟩
  rw [hs] at h1
  rcases res1 with e | headers
  · exact h1
  · dsimp only
    rcases htr : tr ⟨"POST", st.base_url ++ "/transactions/create-pay-link", headers,
        payByLinkPayload email amount installment telephone member_id order_id description⟩
      with e | resp
    · exact sessionInvStep_mono (List.subset_append_left _ _) h1
    · dsimp only
      rcases hh : handle_response_errors codes resp with _ | e2 <;>
        exact sessionInvStep_mono (List.subset_append_left _ _) h1

theorem parse_response_ok (text : String) : ∃ m, parse_response text = .ok m :=
  parseLines_ok _ _

theorem update_token_not_expired {st : ClientState} {now : Nat} (tr : Transport)
    (h : is_token_expired st now = false) :
    update_token st now tr = (st, .ok (), []) := by
  unfold update_token
  rw [if_neg (by simp [h])]

theorem update_token_expired {st : ClientState} {now : Nat} (tr : Transport)
    (h : is_token_expired st now = true) :
    update_token st now tr = login st now tr := by
  unfold update_token
  rw [if_pos h]

theorem set_headers_truthy {st : ClientState} {now : Nat} (tr : Transport)
    (h : pyTruthy st.token = true) :
    set_headers st now tr = (st, .ok (headersOf st), []) := by
  unfold set_headers
  rw [if_pos h]

theorem make_request_log_shape (st : ClientState) (now : Nat) (tr : Transport)
    (codes : List (String × String)) (endpoint : String) (data : List (String × Json))
    (method : String) :
    ∃ rest, (make_request st now tr codes endpoint data method).2.2 =
      (update_token st now tr).2.2 ++ rest := by
  unfold make_request
  rcases hu : update_token st now tr with ⟨st1, res1, log1⟩
  rcases res1 with e | v
  · exact ⟨[], by simp⟩
  · dsimp only
    rcases hs : set_headers st1 now tr with ⟨st2, res2, log2⟩
    rcases res2 with e | headers
    · exact ⟨log2, rfl⟩
    · dsimp only
      by_cases hg : pyUpper method = "GET"
      · rw [if_pos hg]
        dsimp only
        rcases htr : tr ⟨"GET", st1.base_url ++ endpoint, headers, data⟩ with e | resp
        · exact ⟨log2 ++ [⟨"GET", st1.base_url ++ endpoint, headers, data⟩], by simp⟩
        · dsimp only
          rcases hh : handle_response_errors codes resp with _ | e2
          · dsimp only
            rcases hp : parse_response resp.text with e3 | d <;>
              exact ⟨log2 ++ [⟨"GET", st1.base_url ++ endpoint, headers, data⟩], by simp⟩
          · exact ⟨log2 ++ [⟨"GET", st1.base_url ++ endpoint, headers, data⟩], by simp⟩
      · rw [if_neg hg]
        by_cases hp2 : pyUpper method = "POST"
        · rw [if_pos hp2]
          dsimp only
          rcases htr : tr ⟨"POST", st1.base_url ++ endpoint, headers, data⟩ with e | resp
          · exact ⟨log2 ++ [⟨"POST", st1.base_url ++ endpoint, headers, data⟩], by simp⟩
          · dsimp only
            rcases hh : handle_response_errors codes resp with _ | e2
            · dsimp only
              rcases hp : parse_response resp.text with e3 | d <;>
                exact ⟨log2 ++ [⟨"POST", st1.base_url ++ endpoint, headers, data⟩], by simp⟩
            · exact ⟨log2 ++ [⟨"POST", st1.base_url ++ endpoint, headers, data⟩], by simp⟩
        · rw [if_neg hp2]
          exact ⟨log2, rfl⟩

theorem make_request_auth_mem {st : ClientState} {now : Nat} (tr : Transport)
    (codes : List (String × String)) (endpoint : String) (data : List (String × Json))
    (method : String) (h : is_token_expired st now = true) :
    authRequestOf st ∈ (make_request st now tr codes endpoint data method).2.2 := by
  obtain ⟨rest, hrest⟩ := make_request_log_shape st now tr codes endpoint data method
  rw [hrest, update_token_expired tr h, login_log]
  exact List.mem_append_left _ (List.mem_singleton.mpr rfl)

theorem is_token_expired_iff (st : ClientState) (now : Nat) :
    is_token_expired st now = true ↔
      st.token_expiry = none ∨ ∃ e, st.token_expiry = some e ∧ e ≤ now := by
  unfold is_token_expired
  rcases he : st.token_expiry with _ | e
  · simp
  · simp [ge_iff_le]

theorem update_token_log (st : ClientState) (now : Nat) (tr : Transport) :
    (update_token st now tr).2.2 =
      if is_token_expired st now = true then [authRequestOf st] else [] := by
  unfold update_token
  by_cases h : is_token_expired st now = true
  · rw [if_pos h, if_pos h, login_log]
  · rw [if_neg h, if_neg h]

/-- C1: the claim states that for every non-200 response whose JSON body
carries an `errorCode` (or `error`) field listed in the Error Catalog,
the error-detection pass raises `APIError` with the catalog message. The
code does not: `response_data is dict` (client.py:128) is an identity test
against the builtin type object `dict`, which is false for every decoded
value, so the catalog branch is dead and `handle_response_errors` returns
without raising on every input — in particular on a 400 response whose
body is the JSON object with `errorCode` `"100"`, a catalog key. -/
theorem claim_C1_error_detection_dead :
    (∀ (codes : List (String × String)) (resp : HttpResponse),
      handle_response_errors codes resp = none) ∧
    handle_response_errors error_codes_sample
      { status_code := 400, text := "\x7b\"errorCode\": \"100\"\x7d",
        json := .ok (.obj [("errorCode", .str "100")]) } = none ∧
    lookupStr error_codes_sample "100" = some "Wrong amount" :=
  ⟨hre_none, hre_none _ _, rfl⟩

/-- C2: `parse_response` trims the body, splits it into lines, splits each
line containing `": "` once at the first occurrence into key and value,
trims both and inserts them into the mapping, and silently drops lines
without the separator; the two-line body `"Key1: Val1\nKey2: Val2"`
normalizes to the mapping `Key1/Val1, Key2/Val2`, and a separator-less
line anywhere among the lines is dropped without affecting the others. -/
theorem claim_C2_line_parsing :
    parse_response "Key1: Val1\nKey2: Val2" = .ok [("Key1", "Val1"), ("Key2", "Val2")] ∧
    (∀ (line k v : List Char) (rest : List (List Char)) (acc : List (String × String)),
      splitOnce sepChars line = some (k, v) →
      parseLines (line :: rest) acc =
        parseLines rest
          (pyDictSet acc (pyStripChars k).asString (pyStripChars v).asString)) ∧
    (∀ (bad : List Char), containsSub sepChars bad = false →
      ∀ (pre post : List (List Char)) (acc : List (String × String)),
        parseLines (pre ++ bad :: post) acc = parseLines (pre ++ post) acc) :=
  ⟨rfl, fun line k v rest acc hs => parseLines_step line k v hs rest acc,
   fun bad hbad pre post acc => parseLines_skip bad hbad post pre acc⟩

/-- Witness for C2 at concrete inputs: the separator-less line `junk` is
dropped without affecting the line `K: V`, and that line steps to an
insertion of the stripped key/value pair. -/
theorem claim_C2_line_parsing_witness :
    parseLines [['j', 'u', 'n', 'k'], ['K', ':', ' ', 'V']] [] =
      parseLines [['K', ':', ' ', 'V']] [] ∧
    parseLines [['K', ':', ' ', 'V']] [] =
      parseLines []
        (pyDictSet [] (pyStripChars ['K']).asString (pyStripChars ['V']).asString) :=
  ⟨claim_C2_line_parsing.2.2 ['j', 'u', 'n', 'k'] (by decide) []
      [['K', ':', ' ', 'V']] [],
   claim_C2_line_parsing.2.1 ['K', ':', ' ', 'V'] ['K'] ['V'] [] [] (by decide)⟩

/-- C3: `update_token` performs a login — observable as a non-empty request
log, the auth request — exactly when no expiry is recorded or the current
time is at or after the recorded expiry (the comparison is inclusive);
when the token is not expired the state is returned unchanged and no
request is issued, and when it is expired the call is exactly `login`. -/
theorem claim_C3_update_token_iff (st : ClientState) (now : Nat) (tr : Transport) :
    ((update_token st now tr).2.2 ≠ [] ↔
      st.token_expiry = none ∨ ∃ e, st.token_expiry = some e ∧ e ≤ now) ∧
    (is_token_expired st now = false → update_token st now tr = (st, .ok (), [])) ∧
    (is_token_expired st now = true → update_token st now tr = login st now tr) := by
  refine ⟨?_, fun h => update_token_not_expired tr h, fun h => update_token_expired tr h⟩
  rw [update_token_log]
  by_cases h : is_token_expired st now = true
  · rw [if_pos h]
    simp only [← is_token_expired_iff st now, h]
    simp
  · rw [if_neg h]
    simp only [← is_token_expired_iff st now]
    simp only [Bool.not_eq_true] at h
    simp [h]

/-- Witness for C3: with the recorded expiry exactly at the current instant
(the boundary case) `update_token` issues a login request; one instant
before expiry it returns the state unchanged with no request. -/
theorem claim_C3_update_token_iff_witness :
    (update_token stStale 10 trText200).2.2 ≠ [] ∧
    update_token stStale 9 trText200 = (stStale, .ok (), []) :=
  ⟨(claim_C3_update_token_iff stStale 10 trText200).1.mpr (.inr ⟨10, rfl, le_refl 10⟩),
   (claim_C3_update_token_iff stStale 9 trText200).2.1 rfl⟩

/-- C4: when the transport answers the auth request with any non-200
status, `login` raises `UnitedPaymentAPIException` and returns the client
state unchanged — a failed refresh does not erase the cached token or
expiry. -/
theorem claim_C4_login_failure_atomic (st : ClientState) (now : Nat) (tr : Transport)
    (resp : HttpResponse) (htr : tr (authRequestOf st) = .ok resp)
    (hstatus : resp.status_code ≠ 200) :
    login st now tr =
      (st, .error (.unitedPaymentAPIException "Failed to login and retrieve token."),
       [authRequestOf st]) := by
  simp only [login, htr]
  rw [if_neg hstatus]

/-- Witness for C4: a transport answering 500 makes `login` fail with the
login exception and leave the fixture state `stValid` untouched. -/
theorem claim_C4_login_failure_atomic_witness :
    login stValid 5 trFail500 =
      (stValid, .error (.unitedPaymentAPIException "Failed to login and retrieve token."),
       [authRequestOf stValid]) :=
  claim_C4_login_failure_atomic stValid 5 trFail500 ⟨500, "", .error ()⟩ rfl (by decide)

/-- C8: the line parser is total — for every response body string,
including empty or malformed ones, `parse_response` returns a (possibly
empty or partial) mapping and never raises. -/
theorem claim_C8_parse_response_total (text : String) :
    ∃ m, parse_response text = .ok m :=
  parse_response_ok text

/-- C5: session invariant — every modelled client operation leaves the
credentials untouched and either leaves `token` and `token_expiry` exactly
as they were, or writes both through a successful login: the auth request
appears among the operation's requests, the transport answered it with
status 200 and a JSON object, the new `token` is that object's `token`
field and the new expiry is the login time plus exactly 57 minutes. -/
theorem claim_C5_session_invariant (st : ClientState) (now : Nat) (tr : Transport)
    (codes : List (String × String)) (endpoint : String) (data : List (String × Json))
    (method : String) (email : String)
    (amount installment telephone member_id order_id description : Option String) :
    SessionInvStep st (login st now tr).1 now tr (login st now tr).2.2 ∧
    SessionInvStep st (update_token st now tr).1 now tr (update_token st now tr).2.2 ∧
    SessionInvStep st (set_headers st now tr).1 now tr (set_headers st now tr).2.2 ∧
    SessionInvStep st (make_request st now tr codes endpoint data method).1 now tr
      (make_request st now tr codes endpoint data method).2.2 ∧
    SessionInvStep st
      (pay_by_link_qr_code st now tr codes email amount installment telephone member_id
        order_id description).1 now tr
      (pay_by_link_qr_code st now tr codes email amount installment telephone member_id
        order_id description).2.2 :=
  ⟨login_step st now tr, update_token_step st now tr, set_headers_step st now tr,
   make_request_step st now tr codes endpoint data method,
   pay_by_link_step st now tr codes email amount installment telephone member_id
     order_id description⟩

/-- C6: on a 200-status response the error-detection pass never raises —
even when the JSON body carries a catalog error code — and the dispatcher
returns the line-parsed mapping of that body; error detection and line
parsing are independent passes. -/
theorem claim_C6_success_path :
    (∀ (codes : List (String × String)) (resp : HttpResponse),
      resp.status_code = 200 → handle_response_errors codes resp = none) ∧
    (∀ (st : ClientState) (now : Nat) (tr : Transport) (codes : List (String × String))
        (endpoint : String) (data : List (String × Json)) (resp : HttpResponse),
      pyTruthy st.token = true → is_token_expired st now = false →
      tr ⟨"POST", st.base_url ++ endpoint, headersOf st, data⟩ = .ok resp →
      resp.status_code = 200 →
      ∃ m, parse_response resp.text = .ok m ∧
        make_request st now tr codes endpoint data "POST" =
          (st, .ok m, [⟨"POST", st.base_url ++ endpoint, headersOf st, data⟩])) := by
  constructor
  · intro codes resp _h
    exact hre_none codes resp
  · intro st now tr codes endpoint data resp htok hexp htr _hstatus
    obtain ⟨m, hm⟩ := parse_response_ok resp.text
    refine ⟨m, hm, ?_⟩
    unfold make_request
    rw [update_token_not_expired tr hexp]
    dsimp only
    rw [set_headers_truthy tr htok]
    dsimp only
    rw [if_neg (by decide : ¬(pyUpper "POST" = "GET")),
      if_pos (by decide : pyUpper "POST" = "POST")]
    dsimp only
    rw [htr]
    dsimp only
    rw [hre_none codes resp]
    dsimp only
    rw [hm]
    dsimp only
    simp

/-- Witness for C6: the fixture client with a fresh token and an
all-200 text transport gets back the parsed mapping of the body. -/
theorem claim_C6_success_path_witness :
    ∃ m, parse_response "Status: OK" = .ok m ∧
      make_request stValid 5 trText200 [] "/x" [] "POST" =
        (stValid, .ok m, [⟨"POST", stValid.base_url ++ "/x", headersOf stValid, []⟩]) :=
  claim_C6_success_path.2 stValid 5 trText200 [] "/x" []
    ⟨200, "Status: OK", .error ()⟩ rfl rfl rfl rfl

/-- Counterexample to C7 as stated: the single request the dispatcher sends
for the fixture client holding token "tok" carries the header name
`x-auth-token`, and no header named `Authorization`. -/
theorem claim_C7_counterexample :
    (make_request stValid 5 trText200 [] "/x" [] "POST").2.2 =
      [{ method := "POST", url := "https://api.example/x",
         headers := [("x-auth-token", "Bearer tok"), ("Content-Type", "application/json")],
         body := [] }] ∧
    "Authorization" ∉
      ([("x-auth-token", "Bearer tok"),
        ("Content-Type", "application/json")].map Prod.fst) :=
  ⟨rfl, by decide⟩

/-- C7 amended: every request the dispatcher sends under a truthy,
unexpired token carries exactly the header pair
`x-auth-token: "Bearer " + token` (the code's header name — not
`Authorization` as the claim said) and `Content-Type: application/json`,
where token is the session's current token. -/
theorem claim_C7_amended_headers (st : ClientState) (now : Nat) (tr : Transport)
    (codes : List (String × String)) (endpoint : String) (data : List (String × Json))
    (method : String) (t : String) (htok : st.token = some (.str t)) (hne : t ≠ "")
    (hexp : is_token_expired st now = false) :
    ∀ req ∈ (make_request st now tr codes endpoint data method).2.2,
      req.headers =
        [("x-auth-token", "Bearer " ++ t), ("Content-Type", "application/json")] := by
  have hie : t.isEmpty = false := by
    cases h2 : t.isEmpty
    · rfl
    · exact absurd ((String.isEmpty_iff t).mp h2) hne
  have htruthy : pyTruthy st.token = true := by
    rw [htok]
    simp [pyTruthy, Json.pyTruthy, hie]
  have hhead : headersOf st =
      [("x-auth-token", "Bearer " ++ t), ("Content-Type", "application/json")] := by
    simp [headersOf, htok, pyStrOpt, pyStr]
  unfold make_request
  rw [update_token_not_expired tr hexp]
  dsimp only
  rw [set_headers_truthy tr htruthy]
  dsimp only
  by_cases hg : pyUpper method = "GET"
  · rw [if_pos hg]
    dsimp only
    rcases htr : tr ⟨"GET", st.base_url ++ endpoint, headersOf st, data⟩ with e | resp
    · intro req hreq
      simp only [List.nil_append, List.mem_singleton] at hreq
      rw [hreq]
      exact hhead
    · dsimp only
      rcases hh : handle_response_errors codes resp with _ | e2
      · dsimp only
        rcases hp : parse_response resp.text with e3 | d <;>
          · intro req hreq
            simp only [List.nil_append, List.mem_singleton] at hreq
            rw [hreq]
            exact hhead
      · intro req hreq
        simp only [List.nil_append, List.mem_singleton] at hreq
        rw [hreq]
        exact hhead
  · rw [if_neg hg]
    by_cases hp2 : pyUpper method = "POST"
    · rw [if_pos hp2]
      dsimp only
      rcases htr : tr ⟨"POST", st.base_url ++ endpoint, headersOf st, data⟩ with e | resp
      · intro req hreq
        simp only [List.nil_append, List.mem_singleton] at hreq
        rw [hreq]
        exact hhead
      · dsimp only
        rcases hh : handle_response_errors codes resp with _ | e2
        · dsimp only
          rcases hp : parse_response resp.text with e3 | d <;>
            · intro req hreq
              simp only [List.nil_append, List.mem_singleton] at hreq
              rw [hreq]
              exact hhead
        · intro req hreq
          simp only [List.nil_append, List.mem_singleton] at hreq
          rw [hreq]
          exact hhead
    · rw [if_neg hp2]
      intro req hreq
      simp at hreq

/-- Witness for C7 amended: applied to the fixture client, the dispatched
request's headers are exactly the x-auth-token bearer pair. -/
theorem claim_C7_amended_headers_witness :
    ({ method := "POST", url := "https://api.example/x",
       headers := [("x-auth-token", "Bearer tok"), ("Content-Type", "application/json")],
       body := [] } : Request).headers =
      [("x-auth-token", "Bearer tok"), ("Content-Type", "application/json")] :=
  claim_C7_amended_headers stValid 5 trText200 [] "/x" [] "POST" "tok" rfl (by decide)
    rfl _ (List.Mem.head _)

/-- Counterexample to C9 as stated: `stEmptyTok` holds a non-None token
(the empty string, which is falsy in Python) whose expiry (10) has passed
at time 100, yet `pay_by_link_qr_code` performs a login — the auth request
is issued first — and sends the pay-link request with the freshly obtained
token "fresh", not the stale one. -/
theorem claim_C9_counterexample :
    stEmptyTok.token.isSome = true ∧
    is_token_expired stEmptyTok 100 = true ∧
    (pay_by_link_qr_code stEmptyTok 100 trAuthFresh [] "a@b" none none none none none
        none).2.2 =
      [authRequestOf stEmptyTok,
       { method := "POST", url := "u/transactions/create-pay-link",
         headers := [("x-auth-token", "Bearer fresh"), ("Content-Type", "application/json")],
         body := [("email", .str "a@b")] }] :=
  ⟨rfl, rfl, rfl⟩

/-- C9 amended: for every client state whose token is truthy (non-None and
non-empty) but whose expiry has passed, `pay_by_link_qr_code` issues
exactly one request — the pay-link POST carrying the stale token's headers
— and performs no login, whereas `make_request` in the same state does
issue the auth request before dispatching. -/
theorem claim_C9_amended_stale_send (st : ClientState) (now : Nat) (tr : Transport)
    (codes : List (String × String)) (email : String)
    (amount installment telephone member_id order_id description : Option String)
    (endpoint : String) (data : List (String × Json)) (method : String)
    (htok : pyTruthy st.token = true) (hexp : is_token_expired st now = true) :
    (pay_by_link_qr_code st now tr codes email amount installment telephone member_id
        order_id description).2.2 =
      [⟨"POST", st.base_url ++ "/transactions/create-pay-link", headersOf st,
        payByLinkPayload email amount installment telephone member_id order_id
          description⟩] ∧
    authRequestOf st ∉
      (pay_by_link_qr_code st now tr codes email amount installment telephone member_id
        order_id description).2.2 ∧
    authRequestOf st ∈ (make_request st now tr codes endpoint data method).2.2 := by
  have hne : authRequestOf st ≠
      ⟨"POST", st.base_url ++ "/transactions/create-pay-link", headersOf st,
        payByLinkPayload email amount installment telephone member_id order_id
          description⟩ := by
    intro h
    have := congrArg (fun r => r.headers.length) h
    simp [authRequestOf, headersOf] at this
  have hlog : (pay_by_link_qr_code st now tr codes email amount installment telephone
      member_id order_id description).2.2 =
      [⟨"POST", st.base_url ++ "/transactions/create-pay-link", headersOf st,
        payByLinkPayload email amount installment telephone member_id order_id
          description⟩] := by
    unfold pay_by_link_qr_code
    rw [set_headers_truthy tr htok]
    dsimp only
    rcases htr : tr ⟨"POST", st.base_url ++ "/transactions/create-pay-link", headersOf st,
        payByLinkPayload email amount installment telephone member_id order_id
          description⟩ with e | resp
    · simp
    · dsimp only
      rw [hre_none codes resp]
      simp
  refine ⟨hlog, ?_, make_request_auth_mem tr codes endpoint data method hexp⟩
  rw [hlog]
  simp only [List.mem_singleton]
  exact hne

/-- Witness for C9 amended: the fixture `stStale` (truthy token "old",
expiry 10, now 100) sends only the pay-link request and no auth request,
while `make_request` from the same state does send the auth request. -/
theorem claim_C9_amended_stale_send_witness :
    (pay_by_link_qr_code stStale 100 trText200 [] "a@b" none none none none none
        none).2.2 =
      [⟨"POST", stStale.base_url ++ "/transactions/create-pay-link", headersOf stStale,
        payByLinkPayload "a@b" none none none none none none⟩] ∧
    authRequestOf stStale ∉
      (pay_by_link_qr_code stStale 100 trText200 [] "a@b" none none none none none
        none).2.2 ∧
    authRequestOf stStale ∈ (make_request stStale 100 trText200 [] "/x" [] "POST").2.2 :=
  claim_C9_amended_stale_send stStale 100 trText200 [] "a@b" none none none none none
    none "/x" [] "POST" rfl rfl

/-- C10: with a valid cached token (so that the dispatch point is reached
without a login), a `make_request` call whose method string uppercases to
neither "GET" nor "POST" sends no request and fails with
`UnboundLocalError` on reading the never-bound `response` variable — an
error that is neither `requests.RequestException` (so the `except` clause
does not catch it) nor `UnitedPaymentAPIException` (so it escapes the
caller unwrapped). -/
theorem claim_C10_invalid_method (st : ClientState) (now : Nat) (tr : Transport)
    (codes : List (String × String)) (endpoint : String) (data : List (String × Json))
    (method : String) (htok : pyTruthy st.token = true)
    (hexp : is_token_expired st now = false)
    (hg : pyUpper method ≠ "GET") (hp : pyUpper method ≠ "POST") :
    make_request st now tr codes endpoint data method =
      (st, .error .unboundLocalError, []) ∧
    PyExc.unboundLocalError ≠ PyExc.requestException ∧
    ∀ msg, PyExc.unboundLocalError ≠ PyExc.unitedPaymentAPIException msg := by
  refine ⟨?_, by decide, fun msg h => by cases h⟩
  unfold make_request
  rw [update_token_not_expired tr hexp]
  dsimp only
  rw [set_headers_truthy tr htok]
  dsimp only
  rw [if_neg hg, if_neg hp]
  rfl

/-- Witness for C10: the method string "PUT" makes `make_request` fail with
`UnboundLocalError`, sending nothing and leaving the state unchanged. -/
theorem claim_C10_invalid_method_witness :
    make_request stValid 5 trText200 [] "/x" [] "PUT" =
      (stValid, .error .unboundLocalError, []) :=
  (claim_C10_invalid_method stValid 5 trText200 [] "/x" [] "PUT" rfl rfl (by decide)
    (by decide)).1

end UnitedPayment
